import Mathlib

/-!
Verification of the hospital capacity projection and simulation engine
(src/hospital_app.py) against its natural-language specification.

The engine is embedded shallowly: Python floats become rationals, Python
ints become integers, and a computation that raises a ZeroDivisionError is
modelled as an Option-valued computation returning none.
-/

/-- Python int() applied to a float: truncation toward zero. -/
def pyTrunc (q : ℚ) : ℤ := if 0 ≤ q then ⌊q⌋ else ⌈q⌉

/-- Python round(x, 0) applied to a float: rounding half-to-even
(banker's rounding), also the rounding used by the "{:.0f}" format. -/
def pyRound (q : ℚ) : ℤ :=
  if q - ⌊q⌋ < 1/2 then ⌊q⌋
  else if 1/2 < q - ⌊q⌋ then ⌊q⌋ + 1
  else if ⌊q⌋ % 2 = 0 then ⌊q⌋ else ⌊q⌋ + 1

/-- Modelled from the spec: rounding half-away-from-zero, the rounding mode
the spec asserts is used for all displayed integer fields.  Present only to
compare the spec's asserted rounding with the code's actual rounding. -/
def halfAwayRound (q : ℚ) : ℤ := if 0 ≤ q then ⌊q + 1/2⌋ else ⌈q - 1/2⌉

/-- The four status categories emitted by the classifier
(src/hospital_app.py lines 185-196). -/
inductive Status where
  | excellent
  | improving
  | critical
  | alert
deriving DecidableEq, Repr

/-- The three shapes of the time-to-clear field (lines 176-182):
the "∞ (Impossible)" string, the "N/A" string, or "{m} months" where m is
the month count formatted with "{:.0f}". -/
inductive TimeToClear where
  | impossible
  | notApplicable
  | monthsLabel (m : ℤ)
deriving DecidableEq, Repr

/-- One specialty's validated input parameters (the per-specialty config
rows consumed by calculate_metrics and run_detailed_simulation). -/
structure SpecialtyConfig where
  specialty : String
  doctors : ℤ
  non_doctors : ℤ
  doctor_rate : ℚ
  non_doctor_rate : ℚ
  initial_backlog : ℤ
  initial_wait : ℤ
  daily_arrivals : ℤ
deriving DecidableEq, Repr

/-- Line 161: daily_capacity = doctors * doctor_rate + non_doctors * non_doctor_rate. -/
def dailyCapacity (c : SpecialtyConfig) : ℚ :=
  (c.doctors : ℚ) * c.doctor_rate + (c.non_doctors : ℚ) * c.non_doctor_rate

/-- Line 162: net_daily = daily_arrivals - daily_capacity. -/
def netDaily (c : SpecialtyConfig) : ℚ :=
  (c.daily_arrivals : ℚ) - dailyCapacity c

/-- Line 165: final_backlog = max(0, initial_backlog + net_daily * simulation_days). -/
def finalBacklog (c : SpecialtyConfig) (days : ℕ) : ℚ :=
  max 0 ((c.initial_backlog : ℚ) + netDaily c * (days : ℚ))

/-- Line 166: backlog_change = final_backlog - initial_backlog. -/
def backlogChange (c : SpecialtyConfig) (days : ℕ) : ℚ :=
  finalBacklog c days - (c.initial_backlog : ℚ)

/-- Lines 169-172: final_wait = initial_wait * (final_backlog / initial_backlog)
when final_backlog > 0 and initial_backlog > 0, else 0. -/
def finalWait (c : SpecialtyConfig) (days : ℕ) : ℚ :=
  if 0 < finalBacklog c days ∧ 0 < (c.initial_backlog : ℚ) then
    (c.initial_wait : ℚ) * (finalBacklog c days / (c.initial_backlog : ℚ))
  else 0

/-- Line 173: wait_change = final_wait - initial_wait. -/
def waitChange (c : SpecialtyConfig) (days : ℕ) : ℚ :=
  finalWait c days - (c.initial_wait : ℚ)

/-- Lines 176-181, months_to_clear: float('inf') is modelled as none;
some q is the finite value initial_backlog / abs(net_daily) / 30. -/
def monthsToClear (c : SpecialtyConfig) : Option ℚ :=
  if 0 ≤ netDaily c ∨ c.initial_backlog = 0 then none
  else some ((c.initial_backlog : ℚ) / |netDaily c| / 30)

/-- Lines 176-182, time_to_clear: the categorical string. -/
def timeToClear (c : SpecialtyConfig) : TimeToClear :=
  if 0 ≤ netDaily c ∨ c.initial_backlog = 0 then
    if 0 < c.initial_backlog then .impossible else .notApplicable
  else .monthsLabel (pyRound ((c.initial_backlog : ℚ) / |netDaily c| / 30))

/-- Lines 185-196: the status classifier, an ordered if/elif chain on
(final_backlog, initial_backlog). -/
def statusOf (finalB initialB : ℚ) : Status :=
  if finalB < initialB * (1/2) then .excellent
  else if finalB < initialB then .improving
  else if finalB > initialB * (3/2) then .critical
  else .alert

/-- Modelled from the spec: the StatusClassifier of spec section 4.3, the
four ordered rules with first-match-wins, written from the spec's words for
comparison with the code's classifier statusOf. -/
def specClassify (finalB initialB : ℚ) : Status :=
  if finalB < (1/2) * initialB then .excellent
  else if finalB < initialB then .improving
  else if finalB > (3/2) * initialB then .critical
  else .alert

/-- The summary record returned by calculate_metrics (lines 198-216).
The Status Class field is omitted: it is a one-to-one recoding of status. -/
structure SummaryRecord where
  specialty : String
  doctors : ℤ
  non_doctors : ℤ
  daily_capacity : ℚ
  daily_arrivals : ℤ
  net_daily : ℚ
  initial_backlog : ℤ
  final_backlog : ℤ
  backlog_change : ℤ
  initial_wait : ℤ
  final_wait : ℤ
  wait_change : ℤ
  time_to_clear : TimeToClear
  months_to_clear : Option ℚ
  utilisation_percent : ℤ
  status : Status
deriving DecidableEq, Repr

/-- calculate_metrics (lines 150-216).  When daily_capacity = 0 the line
213 expression daily_arrivals / daily_capacity raises ZeroDivisionError in
Python while the record is being built, so no record is returned: that
raise is modelled as none. -/
def calculate_metrics (c : SpecialtyConfig) (days : ℕ) : Option SummaryRecord :=
  if dailyCapacity c = 0 then none
  else some
    { specialty := c.specialty
      doctors := c.doctors
      non_doctors := c.non_doctors
      daily_capacity := dailyCapacity c
      daily_arrivals := c.daily_arrivals
      net_daily := netDaily c
      initial_backlog := c.initial_backlog
      final_backlog := pyTrunc (finalBacklog c days)
      backlog_change := pyTrunc (backlogChange c days)
      initial_wait := c.initial_wait
      final_wait := pyRound (finalWait c days)
      wait_change := pyRound (waitChange c days)
      time_to_clear := timeToClear c
      months_to_clear := monthsToClear c
      utilisation_percent := pyRound ((c.daily_arrivals : ℚ) / dailyCapacity c * 100)
      status := statusOf (finalBacklog c days) (c.initial_backlog : ℚ) }

/-- One row of the detailed per-day table (lines 260-266). -/
structure DailyRecord where
  specialty : String
  day : ℕ
  backlog : ℤ
  wait_time : ℤ
  patients_treated : ℤ
deriving DecidableEq, Repr

/-- Lines 246-252: the daily wait computed from the backlog before that
day's treatment.  Branch one divides by daily_capacity, which raises
ZeroDivisionError in Python when daily_capacity = 0: modelled as none. -/
def dailyWait (c : SpecialtyConfig) (b : ℚ) : Option ℚ :=
  if c.initial_backlog = 0 ∧ 0 < b then
    if dailyCapacity c = 0 then none else some (b / dailyCapacity c)
  else if 0 < b ∧ 0 < c.initial_backlog then
    some ((c.initial_wait : ℚ) * (b / (c.initial_backlog : ℚ)))
  else some 0

/-- The same three ordered wait branches as total rational-valued
arithmetic; agrees with every value dailyWait successfully returns. -/
def waitBranches (c : SpecialtyConfig) (b : ℚ) : ℚ :=
  if c.initial_backlog = 0 ∧ 0 < b then b / dailyCapacity c
  else if 0 < b ∧ 0 < c.initial_backlog then
    (c.initial_wait : ℚ) * (b / (c.initial_backlog : ℚ))
  else 0

/-- Lines 256-258: one day's backlog update — subtract
min(daily_capacity, current_backlog) patients treated, add daily_arrivals. -/
def stepBacklog (c : SpecialtyConfig) (b : ℚ) : ℚ :=
  b - min (dailyCapacity c) b + (c.daily_arrivals : ℚ)

/-- The backlog before treatment at 0-based day index i, starting the loop
from backlog b (line 241 initialises b to initial_backlog). -/
def preBacklogFrom (c : SpecialtyConfig) (b : ℚ) : ℕ → ℚ
  | 0 => b
  | n + 1 => stepBacklog c (preBacklogFrom c b n)

/-- The backlog before treatment at 0-based day index i of the actual run,
which starts from initial_backlog. -/
def preBacklog (c : SpecialtyConfig) (i : ℕ) : ℚ :=
  preBacklogFrom c (c.initial_backlog : ℚ) i

/-- The inner day loop of run_detailed_simulation (lines 243-266): from
pre-treatment backlog b at 0-based day index day, emit the remaining fuel
records.  Each record carries day+1 (1-based), int(current_backlog) after
the update, int(round(current_wait, 0)), and int(patients_treated). -/
def simLoop (c : SpecialtyConfig) : ℚ → ℕ → ℕ → Option (List DailyRecord)
  | _, _, 0 => some []
  | b, day, fuel + 1 =>
    (dailyWait c b).bind fun w =>
      (simLoop c (stepBacklog c b) (day + 1) fuel).map fun rest =>
        { specialty := c.specialty
          day := day + 1
          backlog := pyTrunc (stepBacklog c b)
          wait_time := pyRound w
          patients_treated := pyTrunc (min (dailyCapacity c) b) } :: rest

/-- The day loop for a single specialty, started from initial_backlog at
day index 0 (lines 240-266). -/
def simulateOne (c : SpecialtyConfig) (days : ℕ) : Option (List DailyRecord) :=
  simLoop c (c.initial_backlog : ℚ) 0 days

/-- run_detailed_simulation (lines 218-268): iterate the day loop over the
config rows in request order, concatenating the per-specialty record lists. -/
def run_detailed_simulation : List SpecialtyConfig → ℕ → Option (List DailyRecord)
  | [], _ => some []
  | c :: rest, days =>
    match simulateOne c days, run_detailed_simulation rest days with
    | some a, some b => some (a ++ b)
    | _, _ => none

/-- The record the day loop emits for pre-treatment backlog b at 1-based
day d, expressed as a function of that pre-treatment backlog alone. -/
def mkRecord (c : SpecialtyConfig) (b : ℚ) (d : ℕ) : DailyRecord :=
  { specialty := c.specialty
    day := d
    backlog := pyTrunc (stepBacklog c b)
    wait_time := pyRound (waitBranches c b)
    patients_treated := pyTrunc (min (dailyCapacity c) b) }

/-- Scenario A of the spec (the Dermatology defaults, lines 385-388). -/
def cfgA : SpecialtyConfig :=
  { specialty := "Dermatology", doctors := 6, non_doctors := 2
    doctor_rate := 18, non_doctor_rate := 12
    initial_backlog := 1100, initial_wait := 65, daily_arrivals := 142 }

/-- Scenario B of the spec (the ICU defaults, lines 461-464). -/
def cfgB : SpecialtyConfig :=
  { specialty := "ICU", doctors := 10, non_doctors := 20
    doctor_rate := 8, non_doctor_rate := 4
    initial_backlog := 870, initial_wait := 2, daily_arrivals := 155 }

/-- A degenerate config with daily_capacity = 0 (both rates zero) and an
empty initial backlog: Scenario C of the spec. -/
def cfgZ : SpecialtyConfig :=
  { specialty := "Z", doctors := 1, non_doctors := 1
    doctor_rate := 0, non_doctor_rate := 0
    initial_backlog := 0, initial_wait := 0, daily_arrivals := 1 }

/-- A config whose closed-form final backlog is the non-integer 1/2. -/
def cfgH : SpecialtyConfig :=
  { specialty := "H", doctors := 1, non_doctors := 1
    doctor_rate := 1/2, non_doctor_rate := 0
    initial_backlog := 0, initial_wait := 0, daily_arrivals := 1 }

/-- A config with shrinking demand (net_daily < 0) but no initial backlog. -/
def cfgN : SpecialtyConfig :=
  { specialty := "N", doctors := 1, non_doctors := 1
    doctor_rate := 1, non_doctor_rate := 1
    initial_backlog := 0, initial_wait := 0, daily_arrivals := 1 }

/-- A small config used to evaluate the day loop concretely:
daily_capacity = 2, initial_backlog = 5, initial_wait = 4, arrivals = 3. -/
def cfgW : SpecialtyConfig :=
  { specialty := "W", doctors := 1, non_doctors := 1
    doctor_rate := 1, non_doctor_rate := 1
    initial_backlog := 5, initial_wait := 4, daily_arrivals := 3 }

/-- The two records the day loop emits for cfgW over a two-day horizon. -/
def wList : List DailyRecord :=
  [ { specialty := "W", day := 1, backlog := 6, wait_time := 4, patients_treated := 2 }
  , { specialty := "W", day := 2, backlog := 7, wait_time := 5, patients_treated := 2 } ]

/-- pyTrunc is the identity on integers. -/
theorem pyTrunc_intCast (n : ℤ) : pyTrunc (n : ℚ) = n := by
  rcases le_or_lt 0 (n : ℚ) with h | h
  · rw [pyTrunc, if_pos h, Int.floor_intCast]
  · rw [pyTrunc, if_neg (not_le.mpr h), Int.ceil_intCast]

/-- pyTrunc of a nonnegative value is its floor. -/
theorem pyTrunc_floor {q : ℚ} (h : 0 ≤ q) : pyTrunc q = ⌊q⌋ := by
  rw [pyTrunc, if_pos h]

/-- pyTrunc preserves nonnegativity. -/
theorem pyTrunc_nonneg {q : ℚ} (h : 0 ≤ q) : 0 ≤ pyTrunc q := by
  rw [pyTrunc_floor h]
  exact Int.floor_nonneg.mpr h

/-- pyRound is the identity on integers. -/
theorem pyRound_intCast (n : ℤ) : pyRound (n : ℚ) = n := by
  rw [pyRound, Int.floor_intCast, if_pos]
  norm_num

/-- Evaluation rule for pyTrunc on a nonnegative value. -/
theorem pyTrunc_eval (q : ℚ) (n : ℤ) (h0 : 0 ≤ q) (h1 : (n : ℚ) ≤ q)
    (h2 : q < (n : ℚ) + 1) : pyTrunc q = n := by
  rw [pyTrunc_floor h0, Int.floor_eq_iff]
  exact ⟨h1, by exact_mod_cast h2⟩

/-- Evaluation rule for pyRound when the fractional part is below one half. -/
theorem pyRound_low (q : ℚ) (n : ℤ) (h1 : (n : ℚ) ≤ q)
    (h2 : q < (n : ℚ) + 1/2) : pyRound q = n := by
  have hf : ⌊q⌋ = n := by
    rw [Int.floor_eq_iff]
    constructor
    · exact h1
    · linarith
  rw [pyRound, hf, if_pos]
  linarith

/-- Evaluation rule for pyRound when the fractional part is above one half. -/
theorem pyRound_high (q : ℚ) (n : ℤ) (h1 : (n : ℚ) + 1/2 < q)
    (h2 : q < (n : ℚ) + 1) : pyRound q = n + 1 := by
  have hf : ⌊q⌋ = n := by
    rw [Int.floor_eq_iff]
    constructor
    · linarith
    · linarith
  rw [pyRound, hf, if_neg, if_pos]
  · linarith
  · linarith

/-- A successful dailyWait value is given by the three total wait branches. -/
theorem dailyWait_some {c : SpecialtyConfig} {b : ℚ} {w : ℚ}
    (h : dailyWait c b = some w) : w = waitBranches c b := by
  unfold dailyWait waitBranches at *
  split_ifs at h ⊢ with h1 h2 h3
  all_goals simp_all

/-- Advancing the start state of the pre-treatment backlog recurrence by one
step shifts its index by one. -/
theorem preBacklogFrom_step (c : SpecialtyConfig) (b : ℚ) :
    ∀ i, preBacklogFrom c (stepBacklog c b) i = preBacklogFrom c b (i + 1)
  | 0 => rfl
  | i + 1 => by
    rw [preBacklogFrom, preBacklogFrom_step c b i]
    rfl

/-- The day loop's successful output is fully characterised: it has one
record per day of fuel, and the record at 0-based index i is determined by
the pre-treatment backlog at index i and the 1-based day number. -/
theorem simLoop_get (c : SpecialtyConfig) :
    ∀ (fuel : ℕ) (b : ℚ) (day : ℕ) (l : List DailyRecord),
      simLoop c b day fuel = some l →
      l.length = fuel ∧
      ∀ i (h : i < l.length),
        l.get ⟨i, h⟩ = mkRecord c (preBacklogFrom c b i) (day + i + 1) := by
  intro fuel
  induction fuel with
  | zero =>
    intro b day l hl
    simp only [simLoop, Option.some.injEq] at hl
    subst hl
    exact ⟨rfl, fun i h => by simp at h⟩
  | succ n ih =>
    intro b day l hl
    simp only [simLoop] at hl
    obtain ⟨w, hw, hmap⟩ := Option.bind_eq_some.mp hl
    obtain ⟨rest, hrest, hcons⟩ := Option.map_eq_some'.mp hmap
    obtain ⟨hlen, hget⟩ := ih (stepBacklog c b) (day + 1) rest hrest
    subst hcons
    refine ⟨by simp [hlen], ?_⟩
    intro i h
    match i with
    | 0 =>
      have hwb := dailyWait_some hw
      subst hwb
      simp [mkRecord, preBacklogFrom]
    | i + 1 =>
      have h2 : i < rest.length := by simpa using h
      have := hget i h2
      simp only [List.get_cons_succ]
      rw [this, preBacklogFrom_step]
      congr 1
      omega

/-- A successful day loop emits exactly fuel records. -/
theorem simLoop_length {c : SpecialtyConfig} {fuel : ℕ} {b : ℚ} {day : ℕ}
    {l : List DailyRecord} (hl : simLoop c b day fuel = some l) :
    l.length = fuel :=
  (simLoop_get c fuel b day l hl).1

/-- The (specialty, day) projection of a successful day loop output is the
specialty name paired with the consecutive 1-based day indices. -/
theorem simLoop_proj (c : SpecialtyConfig) :
    ∀ (fuel : ℕ) (b : ℚ) (day : ℕ) (l : List DailyRecord),
      simLoop c b day fuel = some l →
      l.map (fun r => (r.specialty, r.day)) =
        (List.range fuel).map (fun i => (c.specialty, day + i + 1)) := by
  intro fuel
  induction fuel with
  | zero =>
    intro b day l hl
    simp only [simLoop, Option.some.injEq] at hl
    subst hl
    simp
  | succ n ih =>
    intro b day l hl
    simp only [simLoop] at hl
    obtain ⟨w, hw, hmap⟩ := Option.bind_eq_some.mp hl
    obtain ⟨rest, hrest, hcons⟩ := Option.map_eq_some'.mp hmap
    subst hcons
    have := ih (stepBacklog c b) (day + 1) rest hrest
    rw [List.range_succ_eq_map]
    simp only [List.map_cons, List.map_map, this]
    congr 1
    apply List.map_congr_left
    intro a _
    simp only [Function.comp_apply, Nat.succ_eq_add_one, Prod.mk.injEq, true_and]
    omega

/-- The capacity of the small test config cfgW is 2 patients per day. -/
theorem cfgW_capacity : dailyCapacity cfgW = 2 := by
  norm_num [dailyCapacity, cfgW]

/-- Concrete evaluation of the day loop on cfgW over a two-day horizon. -/
theorem cfgW_sim_eval : simulateOne cfgW 2 = some wList := by
  have hw1 : dailyWait cfgW 5 = some 4 := by
    rw [dailyWait, if_neg (by norm_num [cfgW]), if_pos (by norm_num [cfgW])]
    norm_num [cfgW]
  have hm1 : min (dailyCapacity cfgW) (5 : ℚ) = 2 := by
    rw [cfgW_capacity]
    norm_num [min_def]
  have hs1 : stepBacklog cfgW 5 = 6 := by
    rw [stepBacklog, hm1]
    norm_num [cfgW]
  have hw2 : dailyWait cfgW 6 = some (24/5) := by
    rw [dailyWait, if_neg (by norm_num [cfgW]), if_pos (by norm_num [cfgW])]
    norm_num [cfgW]
  have hm2 : min (dailyCapacity cfgW) (6 : ℚ) = 2 := by
    rw [cfgW_capacity]
    norm_num [min_def]
  have hs2 : stepBacklog cfgW 6 = 7 := by
    rw [stepBacklog, hm2]
    norm_num [cfgW]
  have ht6 : pyTrunc (6 : ℚ) = 6 := pyTrunc_eval 6 6 (by norm_num) (by norm_num) (by norm_num)
  have ht7 : pyTrunc (7 : ℚ) = 7 := pyTrunc_eval 7 7 (by norm_num) (by norm_num) (by norm_num)
  have ht2 : pyTrunc (2 : ℚ) = 2 := pyTrunc_eval 2 2 (by norm_num) (by norm_num) (by norm_num)
  have hr4 : pyRound (4 : ℚ) = 4 := pyRound_low 4 4 (by norm_num) (by norm_num)
  have hr5 : pyRound (24/5 : ℚ) = 5 := by
    have h := pyRound_high (24/5) 4 (by norm_num) (by norm_num)
    norm_num at h
    exact h
  have hb0 : ((cfgW.initial_backlog : ℤ) : ℚ) = 5 := by norm_num [cfgW]
  rw [simulateOne, hb0]
  simp only [simLoop, hw1, hs1, hw2, hs2, hm1, hm2, ht6, ht7, ht2, hr4, hr5,
    Option.bind_some, Option.map_some', Option.bind_none, Option.map_none']
  norm_num [wList, cfgW]
  exact ⟨hr4, hr5⟩

/-- Scenario A capacity: 6 doctors at 18/day plus 2 non-doctors at 12/day. -/
theorem cfgA_capacity : dailyCapacity cfgA = 132 := by
  norm_num [dailyCapacity, cfgA]

/-- Scenario A net daily demand: 142 arrivals against capacity 132. -/
theorem cfgA_net : netDaily cfgA = 10 := by
  rw [netDaily, cfgA_capacity]
  norm_num [cfgA]

/-- Scenario A projected final backlog over 180 days. -/
theorem cfgA_final : finalBacklog cfgA 180 = 2900 := by
  rw [finalBacklog, cfgA_net]
  norm_num [cfgA, max_def]

/-- Scenario B net daily demand: 155 arrivals against capacity 160. -/
theorem cfgB_net : netDaily cfgB = -5 := by
  norm_num [netDaily, dailyCapacity, cfgB]

/-- Scenario B projected final backlog over 180 days hits the zero clamp. -/
theorem cfgB_final : finalBacklog cfgB 180 = 0 := by
  rw [finalBacklog, cfgB_net]
  norm_num [cfgB, max_def]

/-- C1: the claim says a config with daily_capacity = 0 must not raise a
division fault — utilisation reported as a sentinel and the daily wait
branch special-cased.  The code instead divides unguarded: on cfgZ
(both rates 0, empty initial backlog, one arrival per day) the summary
raises ZeroDivisionError at the utilisation expression and the day-by-day
simulation raises it in the wait branch on day 2; both evaluate to none in
the embedding, so the guarded behaviour the claim requires is absent. -/
theorem c1_capacity_zero_raises :
    calculate_metrics cfgZ 1 = none ∧
    simulateOne cfgZ 2 = none ∧
    run_detailed_simulation [cfgZ] 2 = none := by
  have hcap : dailyCapacity cfgZ = 0 := by norm_num [dailyCapacity, cfgZ]
  have hsum : calculate_metrics cfgZ 1 = none := by
    rw [calculate_metrics, if_pos hcap]
  have hw1 : dailyWait cfgZ 0 = some 0 := by
    rw [dailyWait, if_neg (by norm_num), if_neg (by norm_num)]
  have hs1 : stepBacklog cfgZ 0 = 1 := by
    rw [stepBacklog, hcap]
    norm_num [cfgZ, min_def]
  have hw2 : dailyWait cfgZ 1 = none := by
    rw [dailyWait, if_pos (by norm_num [cfgZ]), if_pos hcap]
  have hsim : simulateOne cfgZ 2 = none := by
    rw [simulateOne, show ((cfgZ.initial_backlog : ℤ) : ℚ) = 0 by norm_num [cfgZ]]
    simp only [simLoop, hw1, hs1, hw2, Option.some_bind, Option.none_bind,
      Option.map_none', Option.map_some']
  refine ⟨hsum, hsim, ?_⟩
  simp [run_detailed_simulation, hsim]

/-- C4: the status classifier is a total function of the pair
(final_backlog, initial_backlog) implementing the spec's four ordered
first-match-wins rules, and on every pair with equal nonnegative backlogs —
including the degenerate (0, 0) — it returns Alert. -/
theorem c4_status_classifier : ∀ finalB initialB : ℚ,
    statusOf finalB initialB = specClassify finalB initialB ∧
    (0 ≤ initialB → statusOf initialB initialB = Status.alert) ∧
    statusOf 0 0 = Status.alert := by
  intro fb ib
  refine ⟨?_, ?_, ?_⟩
  · unfold statusOf specClassify
    split_ifs <;> first | rfl | linarith
  · intro h
    have h1 : ¬(ib < ib * (1/2)) := by intro hc; linarith
    have h2 : ¬(ib < ib) := lt_irrefl ib
    have h3 : ¬(ib > ib * (3/2)) := by intro hc; linarith
    rw [statusOf, if_neg h1, if_neg h2, if_neg h3]
  · norm_num [statusOf]

/-- Witness for C4 at the concrete equal pair (5, 5). -/
theorem c4_status_classifier_witness :
    (0 : ℚ) ≤ 5 ∧ statusOf 5 5 = Status.alert :=
  ⟨by norm_num, (c4_status_classifier 5 5).2.1 (by norm_num)⟩

/-- C5: the summary projector computes daily_capacity, net_daily,
final_backlog = max(0, initial_backlog + net_daily * horizon) and
backlog_change = final_backlog - initial_backlog; a zero horizon leaves the
backlog unchanged, and Scenario A yields capacity 132, net daily 10, final
backlog 2900 and status Critical. -/
theorem c5_summary_projector : ∀ (c : SpecialtyConfig) (days : ℕ),
    dailyCapacity c = (c.doctors : ℚ) * c.doctor_rate + (c.non_doctors : ℚ) * c.non_doctor_rate ∧
    netDaily c = (c.daily_arrivals : ℚ) - dailyCapacity c ∧
    finalBacklog c days = max 0 ((c.initial_backlog : ℚ) + netDaily c * (days : ℚ)) ∧
    backlogChange c days = finalBacklog c days - (c.initial_backlog : ℚ) ∧
    ((0 : ℤ) ≤ c.initial_backlog → finalBacklog c 0 = (c.initial_backlog : ℚ)) ∧
    (calculate_metrics cfgA 180).map
        (fun r => (r.daily_capacity, r.net_daily, r.final_backlog, r.status)) =
      some (132, 10, 2900, Status.critical) := by
  intro c days
  refine ⟨rfl, rfl, rfl, rfl, ?_, ?_⟩
  · intro h
    rw [finalBacklog]
    push_cast
    rw [mul_zero, add_zero]
    exact max_eq_right (by exact_mod_cast h)
  · have htr : pyTrunc (finalBacklog cfgA 180) = 2900 := by
      rw [cfgA_final]
      exact pyTrunc_eval 2900 2900 (by norm_num) (by norm_num) (by norm_num)
    have hst : statusOf (finalBacklog cfgA 180) ((cfgA.initial_backlog : ℤ) : ℚ) =
        Status.critical := by
      rw [cfgA_final, statusOf, if_neg (by norm_num [cfgA]), if_neg (by norm_num [cfgA]),
        if_pos (by norm_num [cfgA])]
    rw [calculate_metrics, if_neg (by rw [cfgA_capacity]; norm_num)]
    simp only [Option.map_some', Option.some.injEq, Prod.mk.injEq]
    exact ⟨cfgA_capacity, cfgA_net, htr, hst⟩

/-- Witness for C5: the zero-horizon clause discharged on Scenario A. -/
theorem c5_summary_projector_witness :
    (0 : ℤ) ≤ cfgA.initial_backlog ∧ finalBacklog cfgA 0 = (cfgA.initial_backlog : ℚ) :=
  ⟨by norm_num [cfgA], (c5_summary_projector cfgA 0).2.2.2.2.1 (by norm_num [cfgA])⟩

/-- C9: the wait projection: final_wait = initial_wait * (final_backlog /
initial_backlog) when both backlogs are positive and 0 otherwise;
wait_change = final_wait - initial_wait, and when the projected final
backlog is 0 with a positive initial wait it equals -initial_wait and is
negative. -/
theorem c9_wait_projection : ∀ (c : SpecialtyConfig) (days : ℕ),
    (0 < finalBacklog c days ∧ 0 < (c.initial_backlog : ℚ) →
      finalWait c days = (c.initial_wait : ℚ) * (finalBacklog c days / (c.initial_backlog : ℚ))) ∧
    (¬(0 < finalBacklog c days ∧ 0 < (c.initial_backlog : ℚ)) → finalWait c days = 0) ∧
    waitChange c days = finalWait c days - (c.initial_wait : ℚ) ∧
    (finalBacklog c days = 0 ∧ 0 < (c.initial_wait : ℚ) →
      waitChange c days = -(c.initial_wait : ℚ) ∧ waitChange c days < 0) := by
  intro c days
  refine ⟨fun h => by rw [finalWait, if_pos h], fun h => by rw [finalWait, if_neg h], rfl, ?_⟩
  rintro ⟨hf, hw⟩
  have h0 : finalWait c days = 0 := by
    rw [finalWait, if_neg]
    rintro ⟨hc, -⟩
    rw [hf] at hc
    exact lt_irrefl 0 hc
  refine ⟨?_, ?_⟩
  · rw [waitChange, h0]
    ring
  · rw [waitChange, h0]
    linarith

/-- Witness for C9: the positive-backlog branch on Scenario A and the
cleared-backlog branch on Scenario B. -/
theorem c9_wait_projection_witness :
    (0 < finalBacklog cfgA 180 ∧ 0 < ((cfgA.initial_backlog : ℤ) : ℚ)) ∧
    finalWait cfgA 180 =
      (cfgA.initial_wait : ℚ) * (finalBacklog cfgA 180 / (cfgA.initial_backlog : ℚ)) ∧
    (finalBacklog cfgB 180 = 0 ∧ 0 < ((cfgB.initial_wait : ℤ) : ℚ)) ∧
    waitChange cfgB 180 = -((cfgB.initial_wait : ℤ) : ℚ) := by
  have hA1 : 0 < finalBacklog cfgA 180 := by rw [cfgA_final]; norm_num
  have hA2 : 0 < ((cfgA.initial_backlog : ℤ) : ℚ) := by norm_num [cfgA]
  have hB2 : 0 < ((cfgB.initial_wait : ℤ) : ℚ) := by norm_num [cfgB]
  exact ⟨⟨hA1, hA2⟩, (c9_wait_projection cfgA 180).1 ⟨hA1, hA2⟩, ⟨cfgB_final, hB2⟩,
    ((c9_wait_projection cfgB 180).2.2.2 ⟨cfgB_final, hB2⟩).1⟩

/-- Counterexample to C2: on cfgH the underlying final backlog is 1/2, whose
half-away-from-zero rounding is 1, yet the reported Final Backlog field is
int(1/2) = 0 — the field is truncated, not rounded half-away-from-zero. -/
theorem c2_counterexample :
    (calculate_metrics cfgH 1).map (fun r => r.final_backlog) = some 0 ∧
    halfAwayRound (finalBacklog cfgH 1) = 1 ∧
    (calculate_metrics cfgH 1).map (fun r => r.final_backlog) ≠
      some (halfAwayRound (finalBacklog cfgH 1)) := by
  have hcap : dailyCapacity cfgH = 1/2 := by norm_num [dailyCapacity, cfgH]
  have hfb : finalBacklog cfgH 1 = 1/2 := by
    rw [finalBacklog, netDaily, hcap]
    norm_num [cfgH, max_def]
  have htr : pyTrunc (finalBacklog cfgH 1) = 0 := by
    rw [hfb]
    exact pyTrunc_eval (1/2) 0 (by norm_num) (by norm_num) (by norm_num)
  have hha : halfAwayRound (finalBacklog cfgH 1) = 1 := by
    rw [hfb, halfAwayRound, if_pos (by norm_num),
      show (1/2 + 1/2 : ℚ) = ((1 : ℤ) : ℚ) by norm_num, Int.floor_intCast]
  have hmap : (calculate_metrics cfgH 1).map (fun r => r.final_backlog) = some 0 := by
    rw [calculate_metrics, if_neg (by rw [hcap]; norm_num)]
    simpa using htr
  refine ⟨hmap, hha, ?_⟩
  rw [hmap, hha]
  simp

/-- C2 as the code actually behaves: Final Backlog and Backlog Change (and
the daily Backlog and Patients Treated fields) are truncated toward zero by
int(), while Final Wait, Wait Change, Utilisation and the daily Wait Time
are rounded half-to-even by Python round(). -/
theorem c2_rounding_amended : ∀ (c : SpecialtyConfig) (days : ℕ),
    (dailyCapacity c ≠ 0 →
      (calculate_metrics c days).map (fun r => r.final_backlog) =
        some (pyTrunc (finalBacklog c days)) ∧
      (calculate_metrics c days).map (fun r => r.backlog_change) =
        some (pyTrunc (backlogChange c days)) ∧
      (calculate_metrics c days).map (fun r => r.final_wait) =
        some (pyRound (finalWait c days)) ∧
      (calculate_metrics c days).map (fun r => r.wait_change) =
        some (pyRound (waitChange c days)) ∧
      (calculate_metrics c days).map (fun r => r.utilisation_percent) =
        some (pyRound ((c.daily_arrivals : ℚ) / dailyCapacity c * 100))) ∧
    (∀ l, simulateOne c days = some l → ∀ i (h : i < l.length),
      (l.get ⟨i, h⟩).backlog = pyTrunc (stepBacklog c (preBacklog c i)) ∧
      (l.get ⟨i, h⟩).wait_time = pyRound (waitBranches c (preBacklog c i)) ∧
      (l.get ⟨i, h⟩).patients_treated =
        pyTrunc (min (dailyCapacity c) (preBacklog c i))) := by
  intro c days
  constructor
  · intro hc
    rw [calculate_metrics, if_neg hc]
    simp
  · intro l hl i h
    rw [(simLoop_get c days _ 0 l hl).2 i h]
    exact ⟨rfl, rfl, rfl⟩

/-- Witness for C2's amended statement on cfgW. -/
theorem c2_rounding_amended_witness :
    dailyCapacity cfgW ≠ 0 ∧
    (calculate_metrics cfgW 2).map (fun r => r.final_backlog) =
      some (pyTrunc (finalBacklog cfgW 2)) ∧
    simulateOne cfgW 2 = some wList ∧
    (wList.get ⟨0, by norm_num [wList]⟩).backlog =
      pyTrunc (stepBacklog cfgW (preBacklog cfgW 0)) := by
  have hc : dailyCapacity cfgW ≠ 0 := by rw [cfgW_capacity]; norm_num
  exact ⟨hc, ((c2_rounding_amended cfgW 2).1 hc).1, cfgW_sim_eval,
    ((c2_rounding_amended cfgW 2).2 wList cfgW_sim_eval 0 (by norm_num [wList])).1⟩

/-- Counterexample to C3: cfgN has net_daily = -1 < 0 and initial_backlog
= 0; the claim demands the finite value (0 / 1) / 30, but the code takes
the initial_backlog = 0 branch and returns months_to_clear = infinity. -/
theorem c3_counterexample :
    netDaily cfgN < 0 ∧
    monthsToClear cfgN = none ∧
    monthsToClear cfgN ≠ some ((cfgN.initial_backlog : ℚ) / |netDaily cfgN| / 30) := by
  have hnet : netDaily cfgN = -1 := by norm_num [netDaily, dailyCapacity, cfgN]
  have hm : monthsToClear cfgN = none := by
    rw [monthsToClear, if_pos (Or.inr (by norm_num [cfgN]))]
  refine ⟨by rw [hnet]; norm_num, hm, ?_⟩
  rw [hm]
  simp

/-- C3 as the code actually behaves: months_to_clear is infinite whenever
net_daily ≥ 0 or initial_backlog = 0 (impossible when the backlog is
positive, not-applicable otherwise); only when net_daily < 0 and
initial_backlog ≠ 0 is the finite month count (initial_backlog /
abs net_daily) / 30 produced, rendered as a whole month count. -/
theorem c3_time_to_clear_amended : ∀ c : SpecialtyConfig,
    ((0 ≤ netDaily c ∨ c.initial_backlog = 0) →
      monthsToClear c = none ∧
      (0 < c.initial_backlog → timeToClear c = TimeToClear.impossible) ∧
      (¬0 < c.initial_backlog → timeToClear c = TimeToClear.notApplicable)) ∧
    (netDaily c < 0 ∧ c.initial_backlog ≠ 0 →
      monthsToClear c = some ((c.initial_backlog : ℚ) / |netDaily c| / 30) ∧
      timeToClear c =
        TimeToClear.monthsLabel (pyRound ((c.initial_backlog : ℚ) / |netDaily c| / 30))) := by
  intro c
  constructor
  · intro h
    refine ⟨by rw [monthsToClear, if_pos h], fun hp => ?_, fun hn => ?_⟩
    · rw [timeToClear, if_pos h, if_pos hp]
    · rw [timeToClear, if_pos h, if_neg hn]
  · rintro ⟨h1, h2⟩
    have hno : ¬(0 ≤ netDaily c ∨ c.initial_backlog = 0) := by
      push_neg
      exact ⟨h1, h2⟩
    exact ⟨by rw [monthsToClear, if_neg hno], by rw [timeToClear, if_neg hno]⟩

/-- Witness for C3's amended statement: the impossible branch on Scenario A
and the finite branch on Scenario B. -/
theorem c3_time_to_clear_amended_witness :
    (0 ≤ netDaily cfgA ∨ cfgA.initial_backlog = 0) ∧
    timeToClear cfgA = TimeToClear.impossible ∧
    (netDaily cfgB < 0 ∧ cfgB.initial_backlog ≠ 0) ∧
    monthsToClear cfgB = some ((cfgB.initial_backlog : ℚ) / |netDaily cfgB| / 30) := by
  have hA : 0 ≤ netDaily cfgA ∨ cfgA.initial_backlog = 0 :=
    Or.inl (by rw [cfgA_net]; norm_num)
  have hB1 : netDaily cfgB < 0 := by rw [cfgB_net]; norm_num
  have hB2 : cfgB.initial_backlog ≠ 0 := by norm_num [cfgB]
  exact ⟨hA, ((c3_time_to_clear_amended cfgA).1 hA).2.1 (by norm_num [cfgA]), ⟨hB1, hB2⟩,
    ((c3_time_to_clear_amended cfgB).2 ⟨hB1, hB2⟩).1⟩

/-- C6: the wait emitted on every simulated day is computed from the
backlog before that day's treatment by the three ordered branches —
current_backlog / daily_capacity when initial_backlog = 0 and the backlog
is positive, initial_wait * (current_backlog / initial_backlog) when both
are positive, and 0 otherwise — rounded at emission. -/
theorem c6_daily_wait_branches : ∀ (c : SpecialtyConfig) (days : ℕ) (l : List DailyRecord),
    simulateOne c days = some l →
    ∀ i (h : i < l.length),
      (l.get ⟨i, h⟩).wait_time = pyRound (waitBranches c (preBacklog c i)) := by
  intro c days l hl i h
  rw [(simLoop_get c days _ 0 l hl).2 i h]
  rfl

/-- Witness for C6 on cfgW, day 2: the wait reported for the second day is
the branch formula applied to the backlog before that day's treatment. -/
theorem c6_daily_wait_branches_witness :
    simulateOne cfgW 2 = some wList ∧
    (wList.get ⟨1, by norm_num [wList]⟩).wait_time =
      pyRound (waitBranches cfgW (preBacklog cfgW 1)) :=
  ⟨cfgW_sim_eval, c6_daily_wait_branches cfgW 2 wList cfgW_sim_eval 1 (by norm_num [wList])⟩

/-- C7: on every simulated day the patients treated equal
min(daily_capacity, pre-treatment backlog), hence are at most the capacity
and at most that backlog; the backlog carried into the next day is
nonnegative, and every emitted Backlog field is nonnegative. -/
theorem c7_treated_and_backlog_nonneg : ∀ (c : SpecialtyConfig) (days : ℕ)
    (l : List DailyRecord),
    (0 : ℤ) ≤ c.daily_arrivals →
    simulateOne c days = some l →
    ∀ i (h : i < l.length),
      min (dailyCapacity c) (preBacklog c i) ≤ dailyCapacity c ∧
      min (dailyCapacity c) (preBacklog c i) ≤ preBacklog c i ∧
      (l.get ⟨i, h⟩).patients_treated = pyTrunc (min (dailyCapacity c) (preBacklog c i)) ∧
      0 ≤ stepBacklog c (preBacklog c i) ∧
      0 ≤ (l.get ⟨i, h⟩).backlog := by
  intro c days l ha hl i h
  have hrec := (simLoop_get c days _ 0 l hl).2 i h
  have hstep : 0 ≤ stepBacklog c (preBacklog c i) := by
    rw [stepBacklog]
    have h1 : min (dailyCapacity c) (preBacklog c i) ≤ preBacklog c i := min_le_right _ _
    have h2 : (0 : ℚ) ≤ (c.daily_arrivals : ℚ) := by exact_mod_cast ha
    linarith
  refine ⟨min_le_left _ _, min_le_right _ _, ?_, hstep, ?_⟩
  · rw [hrec]
    rfl
  · rw [hrec]
    exact pyTrunc_nonneg hstep

/-- Witness for C7 on cfgW, day 1. -/
theorem c7_treated_and_backlog_nonneg_witness :
    (0 : ℤ) ≤ cfgW.daily_arrivals ∧ simulateOne cfgW 2 = some wList ∧
    0 ≤ (wList.get ⟨0, by norm_num [wList]⟩).backlog := by
  have ha : (0 : ℤ) ≤ cfgW.daily_arrivals := by norm_num [cfgW]
  exact ⟨ha, cfgW_sim_eval,
    (c7_treated_and_backlog_nonneg cfgW 2 wList ha cfgW_sim_eval 0 (by norm_num [wList])).2.2.2.2⟩

/-- C8: a successful detailed run contains exactly horizon_days records per
specialty, ordered by specialty in request order then by 1-based ascending
day index, and a zero horizon produces the empty table. -/
theorem c8_detail_shape : ∀ (cfgs : List SpecialtyConfig) (days : ℕ),
    (∀ res, run_detailed_simulation cfgs days = some res →
      res.length = cfgs.length * days ∧
      res.map (fun r => (r.specialty, r.day)) =
        (cfgs.map (fun c => (List.range days).map (fun d => (c.specialty, d + 1)))).flatten) ∧
    run_detailed_simulation cfgs 0 = some [] := by
  intro cfgs days
  constructor
  · induction cfgs with
    | nil =>
      intro res hres
      simp only [run_detailed_simulation, Option.some.injEq] at hres
      subst hres
      simp
    | cons c rest ih =>
      intro res hres
      rw [run_detailed_simulation] at hres
      cases hsa : simulateOne c days with
      | none => rw [hsa] at hres; simp at hres
      | some a =>
        cases hsb : run_detailed_simulation rest days with
        | none => rw [hsa, hsb] at hres; simp at hres
        | some b =>
          rw [hsa, hsb] at hres
          simp only [Option.some.injEq] at hres
          subst hres
          obtain ⟨ihlen, ihmap⟩ := ih b hsb
          constructor
          · rw [List.length_append, simLoop_length hsa, ihlen, List.length_cons]
            ring
          · rw [List.map_append, simLoop_proj c days _ 0 a hsa, ihmap, List.map_cons,
              List.flatten_cons]
            congr 1
            apply List.map_congr_left
            intro x _
            simp
  · induction cfgs with
    | nil => rfl
    | cons c rest ih =>
      rw [run_detailed_simulation, show simulateOne c 0 = some [] from rfl, ih]
      rfl

/-- Witness for C8 on a one-specialty request over a two-day horizon. -/
theorem c8_detail_shape_witness :
    run_detailed_simulation [cfgW] 2 = some wList ∧
    wList.length = [cfgW].length * 2 ∧
    wList.map (fun r => (r.specialty, r.day)) =
      ([cfgW].map (fun c => (List.range 2).map (fun d => (c.specialty, d + 1)))).flatten := by
  have hrun : run_detailed_simulation [cfgW] 2 = some wList := by
    rw [run_detailed_simulation, cfgW_sim_eval,
      show run_detailed_simulation [] 2 = some [] from rfl]
    rfl
  exact ⟨hrun, ((c8_detail_shape [cfgW] 2).1 wList hrun).1,
    ((c8_detail_shape [cfgW] 2).1 wList hrun).2⟩

/-- C10 (implicit): every daily record reports the backlog after that day's
arrivals were added — post-treatment backlog plus daily_arrivals — so with
at least one arrival per day every emitted Backlog field is at least
daily_arrivals and never 0, even when treatment cleared the whole backlog. -/
theorem c10_backlog_includes_arrivals : ∀ (c : SpecialtyConfig) (days : ℕ)
    (l : List DailyRecord),
    (1 : ℤ) ≤ c.daily_arrivals →
    simulateOne c days = some l →
    ∀ i (h : i < l.length),
      (l.get ⟨i, h⟩).backlog =
        pyTrunc (preBacklog c i - min (dailyCapacity c) (preBacklog c i) +
          (c.daily_arrivals : ℚ)) ∧
      c.daily_arrivals ≤ (l.get ⟨i, h⟩).backlog ∧
      (l.get ⟨i, h⟩).backlog ≠ 0 := by
  intro c days l ha hl i h
  have hrec := (simLoop_get c days _ 0 l hl).2 i h
  have hx : (0 : ℚ) ≤ preBacklog c i - min (dailyCapacity c) (preBacklog c i) := by
    have := min_le_right (dailyCapacity c) (preBacklog c i)
    linarith
  have haq : (1 : ℚ) ≤ (c.daily_arrivals : ℚ) := by exact_mod_cast ha
  have hb : (l.get ⟨i, h⟩).backlog =
      pyTrunc (preBacklog c i - min (dailyCapacity c) (preBacklog c i) +
        (c.daily_arrivals : ℚ)) := by
    rw [hrec]
    rfl
  have hge : c.daily_arrivals ≤ (l.get ⟨i, h⟩).backlog := by
    rw [hb, pyTrunc_floor (by linarith), Int.floor_add_int]
    have := Int.floor_nonneg.mpr hx
    omega
  exact ⟨hb, hge, by omega⟩

/-- Witness for C10 on cfgW, day 1: treated 2 of 5, 3 arrivals, reported
backlog 6 ≥ 3 > 0. -/
theorem c10_backlog_includes_arrivals_witness :
    (1 : ℤ) ≤ cfgW.daily_arrivals ∧ simulateOne cfgW 2 = some wList ∧
    cfgW.daily_arrivals ≤ (wList.get ⟨0, by norm_num [wList]⟩).backlog ∧
    (wList.get ⟨0, by norm_num [wList]⟩).backlog ≠ 0 := by
  have ha : (1 : ℤ) ≤ cfgW.daily_arrivals := by norm_num [cfgW]
  have happ := c10_backlog_includes_arrivals cfgW 2 wList ha cfgW_sim_eval 0
    (by norm_num [wList])
  exact ⟨ha, cfgW_sim_eval, happ.2.1, happ.2.2⟩
